import Mathlib

/-!
Verification of the dibujapy map-rendering scripts (mapa.py, dibuja.py,
mapa_baja_california.py) against their natural-language specification.

The Python sources are embedded shallowly:
  * JSON / user-input numbers are modelled as exact rationals (ℚ); the
    trigonometric zone-size computations use ℝ with `Real.cos`.
  * Fallible operations (Python exceptions) return `Option`; a caught
    exception corresponds to the `none` branch.
  * File contents reached through the OS are passed in explicitly (an
    `ArchivoPaletas` / `ArchivoZonas` value, or a `String → ArchivoZonas`
    map standing for the data directory).
  * The geopandas/shapely geometry engine is an external collaborator; its
    `within` / `intersects` predicates are parameters of the loaders.
-/

namespace Dibujapy

/-! ### Color table and color resolution (mapa.py, COLORES_ESPAÑOL / resolver_color) -/

/-- mapa.py `COLORES_ESPAÑOL`: the fixed 16-entry Spanish-name → hex lookup table. -/
def COLORES_ESPANOL : List (String × String) :=
  [ ("rojo",       "#e63946"),
    ("azul",       "#1d3557"),
    ("verde",      "#2a9d8f"),
    ("amarillo",   "#f4a261"),
    ("naranja",    "#e76f51"),
    ("morado",     "#6a0dad"),
    ("rosa",       "#ff69b4"),
    ("negro",      "#000000"),
    ("blanco",     "#ffffff"),
    ("gris",       "#888888"),
    ("cafe",       "#8b4513"),
    ("cyan",       "#00bcd4"),
    ("magenta",    "#e91e63"),
    ("turquesa",   "#40e0d0"),
    ("dorado",     "#ffd700"),
    ("plateado",   "#c0c0c0") ]

/-- Python `str.strip()` on a character list: drop whitespace on both ends. -/
def pyStrip (cs : List Char) : List Char :=
  ((cs.dropWhile Char.isWhitespace).reverse.dropWhile Char.isWhitespace).reverse

/-- mapa.py `resolver_color`: lower-case and strip the name, look it up in the
table, otherwise return it unchanged (hex codes and matplotlib names pass
through as written). -/
def resolver_color (nombre_color : String) : String :=
  let nombre := String.mk (pyStrip (nombre_color.toList.map Char.toLower))
  match COLORES_ESPANOL.lookup nombre with
  | some hex => hex
  | none =>
    match nombre.toList with
    | '#' :: _ => nombre
    | _ => nombre

/-! ### Luminance-based text contrast (mapa.py `_color_texto_contraste`)

The Python code slices the '#'-stripped string into three 2-character pieces
and parses each with `int(piece, 16)`.  For strings of length ≤ 2 (the only
inputs the slices can produce) Python's `int(s, 16)` accepts: optional
surrounding whitespace, an optional single '+' or '-' sign, and then a
non-empty run of hexadecimal digits.  (The "0x" prefix and '_' separators of
the full grammar need at least three characters, so they cannot occur here.) -/

/-- Value of one hexadecimal digit, `none` for any other character. -/
def hexDigitVal (c : Char) : Option Nat :=
  if '0' ≤ c ∧ c ≤ '9' then some (c.toNat - '0'.toNat)
  else if 'a' ≤ c ∧ c ≤ 'f' then some (c.toNat - 'a'.toNat + 10)
  else if 'A' ≤ c ∧ c ≤ 'F' then some (c.toNat - 'A'.toNat + 10)
  else none

/-- Value of a non-empty all-hex-digit run, `none` otherwise. -/
def hexRunVal : List Char → Option Nat
  | [] => none
  | [c] => hexDigitVal c
  | c :: rest =>
    match hexDigitVal c, hexRunVal rest with
    | some d, some n => some (d * 16 ^ rest.length + n)
    | _, _ => none

/-- Python `int(s, 16)` for the ≤ 2-character slices taken by
`_color_texto_contraste`: strip whitespace, optional sign, non-empty hex run. -/
def pyIntHex (cs : List Char) : Option Int :=
  match pyStrip cs with
  | [] => none
  | c :: rest =>
    let signo : Int := if c = '-' then -1 else 1
    let digitos := if c = '-' ∨ c = '+' then rest else c :: rest
    match hexRunVal digitos with
    | some n => some (signo * n)
    | none => none

/-- The `r, g, b` parse step of `_color_texto_contraste`: strip the leading
'#'-run, slice positions [0:2], [2:4], [4:6], parse each as Python hex. -/
def parseRGB (hex_color : String) : Option (Int × Int × Int) :=
  let h := hex_color.toList.dropWhile (· == '#')
  match pyIntHex (h.take 2), pyIntHex ((h.drop 2).take 2), pyIntHex ((h.drop 4).take 2) with
  | some r, some g, some b => some (r, g, b)
  | _, _, _ => none

/-- The relative-luminance formula of `_color_texto_contraste`. -/
def brillo (r g b : Int) : ℚ :=
  ((0.299 : ℚ) * r + (0.587 : ℚ) * g + (0.114 : ℚ) * b) / 255

/-- mapa.py `_color_texto_contraste`: white text on dark fills, black
otherwise; any parse failure (the `except` branch) yields black. -/
def color_texto_contraste (hex_color : String) : String :=
  match parseRGB hex_color with
  | some (r, g, b) => if brillo r g b < 0.5 then "white" else "black"
  | none => "black"

/-- Modelled from the spec's words (§6: a color is "a literal hex string"):
a well-formed hex color is '#' followed by exactly six hexadecimal digits.
Used only to state what a *malformed* hex color is in claim C2. -/
def color_hex_bien_formado (s : String) : Bool :=
  match s.toList with
  | '#' :: resto => resto.length == 6 && resto.all (fun c => (hexDigitVal c).isSome)
  | _ => false

/-! ### Palette store (mapa.py / dibuja.py / mapa_baja_california.py:
`paleta_por_defecto`, `cargar_paletas`, `pedir_paleta`) -/

/-- One color palette: the ~16 fixed visual roles of the JSON palette schema
(string hex colors, plus the one numeric grid-alpha field). -/
structure Paleta where
  nombre : String
  fondo_figura : String
  fondo_mapa : String
  relleno_tierra : String
  contorno : String
  division_estados : String
  texto_etiquetas : String
  texto_stroke : String
  titulo : String
  subtitulo : String
  ejes_texto : String
  ejes_ticks : String
  ejes_bordes : String
  cuadricula : String
  cuadricula_alpha : ℚ
  texto_info : String
  indicador_norte : String
deriving DecidableEq, Repr

/-- `paleta_por_defecto`: the built-in fallback palette, identical in all
three scripts. -/
def paleta_por_defecto : Paleta where
  nombre := "Clásico (fondo blanco)"
  fondo_figura := "#ffffff"
  fondo_mapa := "#ffffff"
  relleno_tierra := "#f5e6ca"
  contorno := "#1a3c6e"
  division_estados := "#cc3333"
  texto_etiquetas := "#1a1a1a"
  texto_stroke := "#ffffff"
  titulo := "#1a3c6e"
  subtitulo := "#666666"
  ejes_texto := "#333333"
  ejes_ticks := "#444444"
  ejes_bordes := "#cccccc"
  cuadricula := "#cccccc"
  cuadricula_alpha := 0.3
  texto_info := "#777777"
  indicador_norte := "#1a3c6e"

/-- The palette file as `cargar_paletas` can observe it: absent on disk,
unreadable/unparseable (the `except` branch), or parsed — in which case
`data.get("paletas", [])` yields the contained list (empty when the key is
missing). -/
inductive ArchivoPaletas where
  | ausente
  | ilegible
  | legible (paletas : List Paleta)
deriving DecidableEq

/-- `cargar_paletas`: missing file, parse error, or an empty list all fall
back to the single built-in default palette; errors never propagate. -/
def cargar_paletas (archivo : ArchivoPaletas) : List Paleta :=
  match archivo with
  | .ausente => [paleta_por_defecto]
  | .ilegible => [paleta_por_defecto]
  | .legible paletas => if paletas.isEmpty then [paleta_por_defecto] else paletas

/-! Python `int(s)` (base 10) on an arbitrary user reply: surrounding
whitespace, an optional sign, then a digit run with single '_' separators
strictly between digits. -/

/-- A non-empty decimal digit run with single '_' separators between digits. -/
def esRunDecimalPy : List Char → Bool
  | [] => false
  | [c] => c.isDigit
  | c :: '_' :: rest => c.isDigit && esRunDecimalPy rest
  | c :: rest => c.isDigit && esRunDecimalPy rest

/-- Python `int(s)` in base 10, as a partial function. -/
def pyIntDec (s : String) : Option Int :=
  match pyStrip s.toList with
  | [] => none
  | c :: rest =>
    let signo : Int := if c = '-' then -1 else 1
    let digitos := if c = '-' ∨ c = '+' then rest else c :: rest
    if esRunDecimalPy digitos then
      some (signo * (digitos.filter (· ≠ '_')).foldl (fun n c => 10 * n + (c.toNat - '0'.toNat)) 0)
    else none

/-- The `sel` computed by `pedir_paleta` before the range check: strip the
reply; blank gives 0; a numeric reply gives its value minus 1 (1-based
prompt); a `ValueError` gives 0. -/
def sel_paleta (entrada_raw : String) : Int :=
  if (pyStrip entrada_raw.toList).isEmpty then 0
  else
    match pyIntDec (String.mk (pyStrip entrada_raw.toList)) with
    | some n => n - 1
    | none => 0

/-- The final index of `pedir_paleta`: `if sel < 0 or sel >= len(paletas):
sel = 0`. -/
def seleccion_paleta (n_paletas : Nat) (entrada_raw : String) : Int :=
  if sel_paleta entrada_raw < 0 ∨ (n_paletas : Int) ≤ sel_paleta entrada_raw then 0
  else sel_paleta entrada_raw

/-- `pedir_paleta` (identical selection logic in all three scripts), with the
user's raw reply passed in: return `paletas[sel]` for the selected index. -/
def pedir_paleta (paletas : List Paleta) (entrada_raw : String) : Option Paleta :=
  paletas[(seleccion_paleta paletas.length entrada_raw).toNat]?

/-- Modelled from the spec's words ("clamped to valid range", §4.2): the
*nearest-bound clamp* reading of the selection rule, for comparison with
`pedir_paleta` in claim C6.  Blank/invalid replies still give index 0; an
out-of-range index is clamped to the nearest valid index. -/
def pedir_paleta_clamp_spec (paletas : List Paleta) (entrada_raw : String) : Option Paleta :=
  let sel := max 0 (min (sel_paleta entrada_raw) ((paletas.length : Int) - 1))
  paletas[sel.toNat]?

/-! ### Region bounds (`pedir_coordenadas`, identical in all three scripts) -/

/-- `pedir_coordenadas` after the four numeric replies have been read
(blank replies already replaced by the defaults): swap each axis's pair when
it arrives inverted, returning (lat_min, lat_max, lon_min, lon_max). -/
def pedir_coordenadas (lat_min₀ lat_max₀ lon_min₀ lon_max₀ : ℚ) : ℚ × ℚ × ℚ × ℚ :=
  let lat := if lat_min₀ ≥ lat_max₀ then (lat_max₀, lat_min₀) else (lat_min₀, lat_max₀)
  let lon := if lon_min₀ ≥ lon_max₀ then (lon_max₀, lon_min₀) else (lon_min₀, lon_max₀)
  (lat.1, lat.2, lon.1, lon.2)

/-! ### Zone store (mapa.py: `cargar_zonas`) -/

/-- One record of a zone-data file's "zonas" list; every field may be absent
(`z.get(...)` supplies the defaults at use sites). -/
structure ZonaRaw where
  id : Option Int
  nombre : Option String
  latitud : Option ℚ
  longitud : Option ℚ
  figura : Option String
  color : Option String
deriving DecidableEq, Repr

/-- A zone as `cargar_zonas` hands it on: the record tagged with its source
file (`_archivo_origen`) and its layer name (`_nombre_capa`). -/
structure Zona where
  raw : ZonaRaw
  archivo_origen : String
  nombre_capa : String
deriving DecidableEq, Repr

/-- One entry of the capas_zonas.json registry (`capa.get("archivo", "")`). -/
structure Capa where
  archivo : Option String
  descripcion : Option String
deriving DecidableEq, Repr

/-- A zone-data file as `cargar_zonas` can observe it: unreadable (missing or
unparseable — any exception lands in the logged `except` branch), or parsed,
with its optional "nombre" and its "zonas" list. -/
inductive ArchivoZonas where
  | ilegible
  | legible (nombre : Option String) (zonas : List ZonaRaw)

/-- mapa.py `cargar_zonas`: read each active layer's file in order, tag every
contained record with the file name and the layer name
(`data.get("nombre", archivo)`), concatenate; an unreadable file is skipped. -/
def cargar_zonas (fs : String → ArchivoZonas) (capas_activas : List Capa) : List Zona :=
  (capas_activas.map (fun capa =>
    match fs (capa.archivo.getD "") with
    | .ilegible => []
    | .legible nombre zonas =>
      zonas.map (fun z =>
        { raw := z, archivo_origen := capa.archivo.getD "",
          nombre_capa := nombre.getD (capa.archivo.getD "") }))).flatten

/-! ### Meters → degrees and the zone markers (mapa.py:
`metros_a_grados`, `dibujar_zonas`, `dibujar_tabla`, `generar_mapa`) -/

/-- Python `math.radians`. -/
noncomputable def radianes (grados : ℝ) : ℝ := grados * (Real.pi / 180)

open Classical in
/-- mapa.py `metros_a_grados`.  The longitude conversion divides by
`111320 * cos(radians(latitud))` with no guard; `none` models the
`ZeroDivisionError` Python raises when the denominator is zero. -/
noncomputable def metros_a_grados (metros latitud : ℝ) : Option (ℝ × ℝ) :=
  let grados_lat := metros / 111320
  let denominador := 111320 * Real.cos (radianes latitud)
  if denominador = 0 then none else some (grados_lat, metros / denominador)

open Classical in
/-- The per-zone longitudinal radius of `dibujar_zonas`:
`radio_visual / cos_lat if cos_lat > 0 else radio_visual`. -/
noncomputable def radio_lon (radio_visual : ℚ) (lat : ℚ) : ℝ :=
  let cos_lat := Real.cos (radianes (lat : ℝ))
  if 0 < cos_lat then (radio_visual : ℝ) / cos_lat else (radio_visual : ℝ)

/-- The visibility test shared by `generar_mapa`'s comprehension and the
re-check inside `dibujar_zonas`'s loop: missing coordinates default to 0. -/
def zona_visible (lat_min lat_max lon_min lon_max : ℚ) (z : Zona) : Bool :=
  decide (lat_min ≤ z.raw.latitud.getD 0 ∧ z.raw.latitud.getD 0 ≤ lat_max) &&
  decide (lon_min ≤ z.raw.longitud.getD 0 ∧ z.raw.longitud.getD 0 ≤ lon_max)

/-- `generar_mapa`'s `zonas_visibles` comprehension. -/
def zonas_visibles (lat_min lat_max lon_min lon_max : ℚ) (zonas : List Zona) : List Zona :=
  zonas.filter (zona_visible lat_min lat_max lon_min lon_max)

/-- One ellipse drawn by `dibujar_zonas`: center, axis lengths, fill color,
and the ID text with its contrast color. -/
structure Marcador where
  lon : ℚ
  lat : ℚ
  width : ℝ
  height : ℚ
  facecolor : String
  texto : String
  texto_color : String

/-- Python `str(zona.get("id", "?"))`. -/
def texto_id (id : Option Int) : String :=
  match id with
  | some n => toString n
  | none => "?"

/-- One iteration of `dibujar_zonas`'s loop: `none` when the zone falls
outside the visible area (the `continue`), otherwise the drawn marker. -/
noncomputable def marcador_zona (lat_min lat_max lon_min lon_max : ℚ) (radio_visual : ℚ)
    (zona : Zona) : Option Marcador :=
  let lat := zona.raw.latitud.getD 0
  let lon := zona.raw.longitud.getD 0
  let color := resolver_color (zona.raw.color.getD "rojo")
  if zona_visible lat_min lat_max lon_min lon_max zona then
    some { lon := lon, lat := lat,
           width := radio_lon radio_visual lat * 2,
           height := radio_visual * 2,
           facecolor := color,
           texto := texto_id zona.raw.id,
           texto_color := color_texto_contraste color }
  else none

/-- mapa.py `dibujar_zonas`: one shared visual radius, 0.8 % of the map's
latitude span, then one marker per in-area zone. -/
noncomputable def dibujar_zonas (lat_min lat_max lon_min lon_max : ℚ)
    (zonas : List Zona) : List Marcador :=
  let rango_lat := lat_max - lat_min
  let radio_visual := rango_lat * (0.008 : ℚ)
  zonas.filterMap (marcador_zona lat_min lat_max lon_min lon_max radio_visual)

/-- mapa.py `dibujar_tabla`: the legend rows, (ID, nombre) per zone. -/
def dibujar_tabla (zonas : List Zona) : List (String × String) :=
  zonas.map (fun z => (texto_id z.raw.id, z.raw.nombre.getD "?"))

/-- The zone part of mapa.py `generar_mapa`: the visible-zone set, the markers
`dibujar_zonas` draws for it, and the legend rows `dibujar_tabla` lists for it
(both consume exactly `zonas_visibles`; with no visible zone both are empty,
matching the skipped calls). -/
noncomputable def generar_mapa (lat_min lat_max lon_min lon_max : ℚ) (zonas : List Zona) :
    List Zona × List Marcador × List (String × String) :=
  let visibles := zonas_visibles lat_min lat_max lon_min lon_max zonas
  (visibles, dibujar_zonas lat_min lat_max lon_min lon_max visibles, dibujar_tabla visibles)

/-! ### Region filters of the geometry loaders (dibuja.py:
`cargar_ciudades`, `cargar_carreteras`)

The geometry engine (shapely/geopandas) is an external collaborator: its
`within` / `intersects` tests are parameters, and a dataframe is a list of
rows.  `shapely.geometry.box(lon_min, lat_min, lon_max, lat_max)` is the
bounds record below. -/

/-- The `box(lon_min, lat_min, lon_max, lat_max)` bounding box. -/
structure BoundingBox where
  lon_min : ℚ
  lat_min : ℚ
  lon_max : ℚ
  lat_max : ℚ
deriving DecidableEq, Repr

/-- One row of the populated-places dataframe: its geometry and the two
possible country-name columns (the flags of `cargar_ciudades` say which
column the dataframe actually has). -/
structure FilaCiudad (G : Type) where
  geometry : G
  sov0name : String
  adm0name : String
deriving DecidableEq, Repr

/-- dibuja.py `cargar_ciudades`: keep rows whose geometry lies within the
bounding box, then narrow to Mexico by whichever country column exists,
keeping the unnarrowed set when the narrowed one is empty. -/
def cargar_ciudades {G : Type} (within : G → BoundingBox → Bool)
    (tiene_sov0name tiene_adm0name : Bool) (gdf : List (FilaCiudad G))
    (lat_min lat_max lon_min lon_max : ℚ) : List (FilaCiudad G) :=
  let area : BoundingBox := ⟨lon_min, lat_min, lon_max, lat_max⟩
  let ciudades := gdf.filter (fun f => within f.geometry area)
  if tiene_sov0name then
    let ciudades_mx := ciudades.filter (fun f => f.sov0name == "Mexico")
    if ciudades_mx.isEmpty then ciudades else ciudades_mx
  else if tiene_adm0name then
    let ciudades_mx := ciudades.filter (fun f => f.adm0name == "Mexico")
    if ciudades_mx.isEmpty then ciudades else ciudades_mx
  else ciudades

/-- dibuja.py `cargar_carreteras`: keep rows whose geometry intersects the
bounding box. -/
def cargar_carreteras {G : Type} (intersects : G → BoundingBox → Bool)
    (gdf : List G) (lat_min lat_max lon_min lon_max : ℚ) : List G :=
  let area : BoundingBox := ⟨lon_min, lat_min, lon_max, lat_max⟩
  gdf.filter (fun geom => intersects geom area)

/-- A concrete instance of the collaborator predicates, for witnesses:
shapely's `Point(p).within(box)` — strict containment. -/
def punto_within (p : ℚ × ℚ) (b : BoundingBox) : Bool :=
  decide (b.lon_min < p.1 ∧ p.1 < b.lon_max ∧ b.lat_min < p.2 ∧ p.2 < b.lat_max)

/-! ### Concrete inputs used by the closed theorems and witnesses -/

/-- The end-to-end scenario's zone: (25, -113), colored "rojo". -/
def zona_ejemplo : Zona where
  raw := { id := some 1, nombre := some "Ejemplo", latitud := some 25,
           longitud := some (-113), figura := some "circulo", color := some "rojo" }
  archivo_origen := "zonas.json"
  nombre_capa := "Ejemplo"

/-- A zone record with no "latitud" key, for claim C10. -/
def zona_sin_latitud : Zona where
  raw := { id := some 2, nombre := some "SinLatitud", latitud := none,
           longitud := some (-113), figura := some "circulo", color := some "verde" }
  archivo_origen := "zonas.json"
  nombre_capa := "Ejemplo"

/-- The default palette renamed, to build small distinct palette lists. -/
def paleta_n (n : String) : Paleta := { paleta_por_defecto with nombre := n }

/-- A data directory with one valid zone file and everything else missing. -/
def fs_ejemplo : String → ArchivoZonas := fun archivo =>
  if archivo = "valido.json" then .legible (some "Capa Valida") [zona_ejemplo.raw]
  else .ilegible

/-- A populated-places row inside the example bounds. -/
def fila_ciudad_ejemplo : FilaCiudad (ℚ × ℚ) :=
  { geometry := (-113, 25), sov0name := "Mexico", adm0name := "Mexico" }

/-! ## Shared helper lemmas -/

/-- Field values of a marker produced by one loop iteration of `dibujar_zonas`. -/
theorem marcador_zona_eq_some {lat_min lat_max lon_min lon_max radio_visual : ℚ}
    {z : Zona} {m : Marcador}
    (h : marcador_zona lat_min lat_max lon_min lon_max radio_visual z = some m) :
    m.lat = z.raw.latitud.getD 0 ∧ m.lon = z.raw.longitud.getD 0 ∧
    m.height = radio_visual * 2 ∧ m.width = radio_lon radio_visual m.lat * 2 := by
  unfold marcador_zona at h
  split at h
  · cases h
    exact ⟨rfl, rfl, rfl, rfl⟩
  · cases h

/-- Membership in `dibujar_zonas` comes from one zone of the input list. -/
theorem mem_dibujar_zonas {lat_min lat_max lon_min lon_max : ℚ} {zonas : List Zona}
    {m : Marcador} (h : m ∈ dibujar_zonas lat_min lat_max lon_min lon_max zonas) :
    ∃ z ∈ zonas,
      marcador_zona lat_min lat_max lon_min lon_max ((lat_max - lat_min) * (0.008 : ℚ)) z
        = some m := by
  unfold dibujar_zonas at h
  exact List.mem_filterMap.mp h

/-! ## Claim C5 — palette fallback -/

/-- C5: `cargar_paletas` returns exactly the one built-in default palette when
the palette file is missing, when parsing raises, and when the "paletas" list
is empty; no error propagates (the function is total), and the default's
field values are the fixed literals. -/
theorem C5_paletas_por_defecto :
    cargar_paletas .ausente = [paleta_por_defecto] ∧
    cargar_paletas .ilegible = [paleta_por_defecto] ∧
    cargar_paletas (.legible []) = [paleta_por_defecto] ∧
    paleta_por_defecto.nombre = "Clásico (fondo blanco)" ∧
    paleta_por_defecto.relleno_tierra = "#f5e6ca" ∧
    paleta_por_defecto.cuadricula_alpha = 0.3 :=
  ⟨rfl, rfl, rfl, rfl, rfl, rfl⟩

/-! ## Claim C4 — end-to-end visibility scenario -/

/-- C4: with bounds lat [22, 33], lon [-120, -108], the zone at (25, -113)
colored "rojo" is in the visible-zone set, is drawn as a marker at its
coordinates with fill color `resolver_color "rojo" = "#e63946"`, and is
listed in the legend. -/
theorem C4_zona_rojo_visible :
    zona_ejemplo ∈ (generar_mapa 22 33 (-120) (-108) [zona_ejemplo]).1 ∧
    resolver_color "rojo" = "#e63946" ∧
    (∃ m ∈ (generar_mapa 22 33 (-120) (-108) [zona_ejemplo]).2.1,
        m.lon = -113 ∧ m.lat = 25 ∧ m.facecolor = "#e63946") ∧
    ("1", "Ejemplo") ∈ (generar_mapa 22 33 (-120) (-108) [zona_ejemplo]).2.2 := by
  have hvis : zonas_visibles 22 33 (-120) (-108) [zona_ejemplo] = [zona_ejemplo] := by decide
  have hz : zona_visible 22 33 (-120) (-108) zona_ejemplo = true := by decide
  refine ⟨?_, by decide, ?_, ?_⟩
  · show zona_ejemplo ∈ zonas_visibles 22 33 (-120) (-108) [zona_ejemplo]
    rw [hvis]; exact List.mem_singleton_self _
  · show ∃ m ∈ dibujar_zonas 22 33 (-120) (-108)
        (zonas_visibles 22 33 (-120) (-108) [zona_ejemplo]), _
    rw [hvis]
    refine ⟨{ lon := zona_ejemplo.raw.longitud.getD 0,
              lat := zona_ejemplo.raw.latitud.getD 0,
              width := radio_lon ((33 - 22) * (0.008 : ℚ)) (zona_ejemplo.raw.latitud.getD 0) * 2,
              height := (33 - 22) * (0.008 : ℚ) * 2,
              facecolor := resolver_color (zona_ejemplo.raw.color.getD "rojo"),
              texto := texto_id zona_ejemplo.raw.id,
              texto_color :=
                color_texto_contraste (resolver_color (zona_ejemplo.raw.color.getD "rojo")) },
           ?_, by decide, by decide, by decide⟩
    unfold dibujar_zonas
    refine List.mem_filterMap.mpr ⟨zona_ejemplo, List.mem_singleton_self _, ?_⟩
    unfold marcador_zona
    rw [if_pos hz]
  · show ("1", "Ejemplo") ∈ dibujar_tabla (zonas_visibles 22 33 (-120) (-108) [zona_ejemplo])
    rw [hvis]
    exact List.mem_singleton_self _

/-! ## Claim C8 — region-bounds normalization -/

/-- C8 counterexample: when the two latitude replies are equal (25 and 25),
the swap leaves them equal, so the returned bounds violate the claimed strict
invariant min < max. -/
theorem C8_counterexample :
    (pedir_coordenadas 25 25 (-110) (-109)).1 = 25 ∧
    (pedir_coordenadas 25 25 (-110) (-109)).2.1 = 25 ∧
    ¬ ((pedir_coordenadas 25 25 (-110) (-109)).1 <
        (pedir_coordenadas 25 25 (-110) (-109)).2.1) := by
  refine ⟨by decide, by decide, by decide⟩

/-- C8 amended: `pedir_coordenadas` returns each axis's pair in sorted order
(swap-if-inverted), so min ≤ max always holds, min < max holds whenever the
two replies on that axis differ, and swapping the input order of a pair
yields the same normalized bounds. -/
theorem C8_limites_normalizados :
    ∀ a b c d : ℚ,
      pedir_coordenadas a b c d = (min a b, max a b, min c d, max c d) ∧
      pedir_coordenadas a b c d = pedir_coordenadas b a c d ∧
      pedir_coordenadas a b c d = pedir_coordenadas a b d c ∧
      (pedir_coordenadas a b c d).1 ≤ (pedir_coordenadas a b c d).2.1 ∧
      (pedir_coordenadas a b c d).2.2.1 ≤ (pedir_coordenadas a b c d).2.2.2 ∧
      (a ≠ b → (pedir_coordenadas a b c d).1 < (pedir_coordenadas a b c d).2.1) ∧
      (c ≠ d → (pedir_coordenadas a b c d).2.2.1 < (pedir_coordenadas a b c d).2.2.2) := by
  have key : ∀ a b c d : ℚ,
      pedir_coordenadas a b c d = (min a b, max a b, min c d, max c d) := by
    intro a b c d
    unfold pedir_coordenadas
    rcases le_or_lt b a with h1 | h1 <;> rcases le_or_lt d c with h2 | h2 <;>
      simp [ge_iff_le, h1, h2, h1.not_lt, h2.not_lt, min_eq_left, min_eq_right,
        max_eq_left, max_eq_right, le_of_lt, not_le_of_lt]
  intro a b c d
  refine ⟨key a b c d, ?_, ?_, ?_, ?_, ?_, ?_⟩
  · rw [key a b c d, key b a c d, min_comm, max_comm]
  · rw [key a b c d, key a b d c, min_comm c d, max_comm c d]
  · rw [key a b c d]; exact min_le_max
  · rw [key a b c d]; exact min_le_max
  · intro hab; rw [key a b c d]; exact min_lt_max.mpr hab
  · intro hcd; rw [key a b c d]; exact min_lt_max.mpr hcd

/-- C8 witness: distinct replies on both axes, given inverted, come back
swapped into strictly ordered bounds. -/
theorem C8_witness :
    (pedir_coordenadas 2 1 4 3).1 < (pedir_coordenadas 2 1 4 3).2.1 ∧
    (pedir_coordenadas 2 1 4 3).2.2.1 < (pedir_coordenadas 2 1 4 3).2.2.2 := by
  have h := C8_limites_normalizados 2 1 4 3
  exact ⟨h.2.2.2.2.2.1 (by norm_num), h.2.2.2.2.2.2 (by norm_num)⟩

/-! ## Claim C2 — luminance-based text contrast -/

/-- C2 counterexample: "#0000000" (seven hex digits) is not a well-formed hex
color, yet `_color_texto_contraste` parses its first six digits as black and
returns "white" — a malformed hex color string that does not yield black. -/
theorem C2_counterexample :
    color_hex_bien_formado "#0000000" = false ∧
    color_texto_contraste "#0000000" = "white" := by
  refine ⟨by decide, ?_⟩
  have h : parseRGB "#0000000" = some (0, 0, 0) := by decide
  unfold color_texto_contraste
  rw [h]
  show (if brillo 0 0 0 < 0.5 then "white" else "black") = "white"
  rw [if_pos (by norm_num [brillo])]

/-- C2 amended: the returned text color is "white" exactly when the three
2-character slices parse and the luminance is strictly below 0.5; luminance
exactly 0.5 gives "black"; "#000000" gives "white" and "#ffffff" gives
"black"; and every string whose slices fail to parse (rather than every
malformed hex color) yields "black" without raising — a malformed string
whose first six post-'#' characters still parse follows the luminance rule
instead. -/
theorem C2_contraste_por_luminancia :
    (∀ s : String, ∀ r g b : Int, parseRGB s = some (r, g, b) →
      ((color_texto_contraste s = "white" ↔ brillo r g b < 0.5) ∧
       ((0.5 : ℚ) ≤ brillo r g b → color_texto_contraste s = "black"))) ∧
    (∀ s : String, parseRGB s = none → color_texto_contraste s = "black") ∧
    color_texto_contraste "#000000" = "white" ∧
    color_texto_contraste "#ffffff" = "black" := by
  have main : ∀ s : String, ∀ r g b : Int, parseRGB s = some (r, g, b) →
      ((color_texto_contraste s = "white" ↔ brillo r g b < 0.5) ∧
       ((0.5 : ℚ) ≤ brillo r g b → color_texto_contraste s = "black")) := by
    intro s r g b h
    have hc : color_texto_contraste s = if brillo r g b < 0.5 then "white" else "black" := by
      unfold color_texto_contraste
      rw [h]
    rw [hc]
    constructor
    · by_cases hb : brillo r g b < 0.5
      · exact iff_of_true (if_pos hb) hb
      · exact iff_of_false (by rw [if_neg hb]; decide) hb
    · intro hge
      rw [if_neg hge.not_lt]
  refine ⟨main, ?_, ?_, ?_⟩
  · intro s h
    unfold color_texto_contraste
    rw [h]
  · exact (main "#000000" 0 0 0 (by decide)).1.mpr (by norm_num [brillo])
  · exact (main "#ffffff" 255 255 255 (by decide)).2 (by norm_num [brillo])

/-- C2 witness: "#5a966e" has luminance exactly 1/2 and gets black text;
"zzz" fails to parse and gets black text. -/
theorem C2_witness :
    color_texto_contraste "#5a966e" = "black" ∧
    color_texto_contraste "zzz" = "black" := by
  constructor
  · exact (C2_contraste_por_luminancia.1 "#5a966e" 90 150 110 (by decide)).2
      (le_of_eq (by norm_num [brillo]))
  · exact C2_contraste_por_luminancia.2.1 "zzz" (by decide)

/-! ## Claim C6 — palette selection -/

/-- C6 counterexample: with three palettes and the reply "5" (index 4, out of
range), the code returns the *first* palette, while clamping to the valid
range — as the claim states — would return the *third*; the two results
differ. -/
theorem C6_counterexample :
    pedir_paleta [paleta_n "A", paleta_n "B", paleta_n "C"] "5" = some (paleta_n "A") ∧
    pedir_paleta_clamp_spec [paleta_n "A", paleta_n "B", paleta_n "C"] "5" =
      some (paleta_n "C") ∧
    paleta_n "A" ≠ paleta_n "C" := by
  have h1 : seleccion_paleta 3 "5" = 0 := by decide
  have h2 : max 0 (min (sel_paleta "5") ((3 : Int) - 1)) = 2 := by decide
  refine ⟨?_, ?_, ?_⟩
  · show [paleta_n "A", paleta_n "B", paleta_n "C"][(seleccion_paleta 3 "5").toNat]? = _
    rw [h1]; rfl
  · show [paleta_n "A", paleta_n "B", paleta_n "C"][(max 0 (min (sel_paleta "5")
      ((3 : Int) - 1))).toNat]? = _
    rw [h2]; rfl
  · intro h
    have : "A" = "C" := congrArg Paleta.nombre h
    exact absurd this (by decide)

/-- C6 amended: the selection is index-based (1-based in the prompt); blank or
non-numeric input and an out-of-range index all fall back to the *first*
entry (index 0 — not the nearest in-range index), so for every input string
and non-empty palette list the function returns an element of the list. -/
theorem C6_seleccion_en_lista :
    ∀ (paletas : List Paleta) (entrada : String), paletas ≠ [] →
      (∃ p, pedir_paleta paletas entrada = some p ∧ p ∈ paletas) ∧
      (pyStrip entrada.toList = [] → pedir_paleta paletas entrada = paletas[0]?) ∧
      (pyIntDec (String.mk (pyStrip entrada.toList)) = none →
        pedir_paleta paletas entrada = paletas[0]?) ∧
      (∀ n : Int, pyIntDec (String.mk (pyStrip entrada.toList)) = some n →
        n - 1 < 0 ∨ (paletas.length : Int) ≤ n - 1 →
        pedir_paleta paletas entrada = paletas[0]?) := by
  intro paletas entrada hne
  have hlen : 0 < paletas.length := List.length_pos.mpr hne
  have hrange : 0 ≤ seleccion_paleta paletas.length entrada ∧
      (seleccion_paleta paletas.length entrada).toNat < paletas.length := by
    unfold seleccion_paleta
    split
    · omega
    · next h => omega
  refine ⟨?_, ?_, ?_, ?_⟩
  · refine ⟨paletas.get ⟨(seleccion_paleta paletas.length entrada).toNat, hrange.2⟩, ?_, ?_⟩
    · exact List.getElem?_eq_getElem hrange.2
    · exact List.get_mem _ _ _
  · intro hblank
    have hsel : sel_paleta entrada = 0 := by
      unfold sel_paleta
      rw [if_pos (by rw [hblank]; rfl)]
    unfold pedir_paleta seleccion_paleta
    rw [hsel]
    simp
  · intro hnone
    have hsel : sel_paleta entrada = 0 := by
      unfold sel_paleta
      split
      · rfl
      · rw [hnone]
    unfold pedir_paleta seleccion_paleta
    rw [hsel]
    simp
  · intro n hsome hout
    have hsel : sel_paleta entrada = n - 1 := by
      unfold sel_paleta
      split
      · next hemp =>
        exfalso
        have hnil : pyStrip entrada.toList = [] := by
          simpa using hemp
        rw [hnil] at hsome
        simp [pyIntDec, pyStrip] at hsome
      · rw [hsome]
    unfold pedir_paleta seleccion_paleta
    rw [hsel, if_pos hout]
    simp

/-- C6 witness: with a two-palette list, a blank reply, a non-numeric reply
and the out-of-range reply "9" all return the first palette. -/
theorem C6_witness :
    pedir_paleta [paleta_n "A", paleta_n "B"] "" = some (paleta_n "A") ∧
    pedir_paleta [paleta_n "A", paleta_n "B"] "abc" = some (paleta_n "A") ∧
    pedir_paleta [paleta_n "A", paleta_n "B"] "9" = some (paleta_n "A") := by
  refine ⟨?_, ?_, ?_⟩
  · exact ((C6_seleccion_en_lista [paleta_n "A", paleta_n "B"] "" (by simp)).2.1 (by decide)).trans rfl
  · exact ((C6_seleccion_en_lista [paleta_n "A", paleta_n "B"] "abc" (by simp)).2.2.1
      (by decide)).trans rfl
  · exact ((C6_seleccion_en_lista [paleta_n "A", paleta_n "B"] "9" (by simp)).2.2.2 9
      (by decide) (by decide)).trans rfl

/-! ## Claim C7 — zone loading skips bad files -/

/-- C7: an unreadable file anywhere in the registry contributes nothing and
leaves the other files' zones untouched; every loaded zone comes from one
readable registered file's "zonas" list and carries that file's name and
layer name as its tags; and a registry of one missing and one valid file
yields exactly the valid file's zones tagged with the valid file's name. -/
theorem C7_zonas_archivo_malo_omitido :
    (∀ (fs : String → ArchivoZonas) (antes despues : List Capa) (capa : Capa),
      fs (capa.archivo.getD "") = .ilegible →
      cargar_zonas fs (antes ++ capa :: despues) =
        cargar_zonas fs antes ++ cargar_zonas fs despues) ∧
    (∀ (fs : String → ArchivoZonas) (capas : List Capa) (z : Zona),
      z ∈ cargar_zonas fs capas →
      ∃ capa ∈ capas, ∃ nombre zonas, fs (capa.archivo.getD "") = .legible nombre zonas ∧
        z.raw ∈ zonas ∧ z.archivo_origen = capa.archivo.getD "" ∧
        z.nombre_capa = nombre.getD (capa.archivo.getD "")) ∧
    (∀ (fs : String → ArchivoZonas) (faltante valido : String)
       (nombre : Option String) (zonas : List ZonaRaw),
      fs faltante = .ilegible → fs valido = .legible nombre zonas →
      cargar_zonas fs [⟨some faltante, none⟩, ⟨some valido, none⟩] =
        zonas.map (fun z =>
          { raw := z, archivo_origen := valido, nombre_capa := nombre.getD valido })) := by
  refine ⟨?_, ?_, ?_⟩
  · intro fs antes despues capa h
    unfold cargar_zonas
    rw [List.map_append, List.map_cons, List.flatten_append, List.flatten_cons, h]
    rfl
  · intro fs capas z hz
    unfold cargar_zonas at hz
    obtain ⟨l, hl, hzl⟩ := List.mem_flatten.mp hz
    obtain ⟨capa, hcapa, rfl⟩ := List.mem_map.mp hl
    refine ⟨capa, hcapa, ?_⟩
    cases hfs : fs (capa.archivo.getD "") with
    | ilegible =>
      rw [hfs] at hzl
      cases hzl
    | legible nombre zonas =>
      rw [hfs] at hzl
      obtain ⟨zr, hzr, rfl⟩ := List.mem_map.mp hzl
      exact ⟨nombre, zonas, rfl, hzr, rfl, rfl⟩
  · intro fs faltante valido nombre zonas h1 h2
    unfold cargar_zonas
    simp only [List.map_cons, List.map_nil, Option.getD_some, h1, h2]
    rw [List.flatten]
    simp

/-- C7 witness: the two-file scenario with a concrete data directory — the
missing file is skipped, the valid file's single zone arrives tagged with the
valid file's name and its layer name. -/
theorem C7_witness :
    cargar_zonas fs_ejemplo [⟨some "faltante.json", none⟩, ⟨some "valido.json", none⟩] =
      [{ raw := zona_ejemplo.raw, archivo_origen := "valido.json",
         nombre_capa := "Capa Valida" }] := by
  have h := C7_zonas_archivo_malo_omitido.2.2 fs_ejemplo "faltante.json" "valido.json"
    (some "Capa Valida") [zona_ejemplo.raw]
    (by unfold fs_ejemplo; rw [if_neg (by decide)])
    (by unfold fs_ejemplo; rw [if_pos rfl])
  simpa using h

/-! ## Claim C9 — bounding-box filters of the geometry loaders -/

/-- C9: for every valid bounding box, every row `cargar_ciudades` returns
survives the `within`-box filter (the country narrowing only removes rows),
and every row `cargar_carreteras` returns satisfies the `intersects`-box
test. -/
theorem C9_filtros_de_region :
    (∀ (G : Type) (within : G → BoundingBox → Bool) (ts ta : Bool)
       (gdf : List (FilaCiudad G)) (lat_min lat_max lon_min lon_max : ℚ),
      lat_min < lat_max → lon_min < lon_max →
      ∀ f ∈ cargar_ciudades within ts ta gdf lat_min lat_max lon_min lon_max,
        f ∈ gdf.filter (fun f => within f.geometry ⟨lon_min, lat_min, lon_max, lat_max⟩) ∧
        within f.geometry ⟨lon_min, lat_min, lon_max, lat_max⟩ = true) ∧
    (∀ (G : Type) (intersects : G → BoundingBox → Bool) (gdf : List G)
       (lat_min lat_max lon_min lon_max : ℚ),
      lat_min < lat_max → lon_min < lon_max →
      ∀ g ∈ cargar_carreteras intersects gdf lat_min lat_max lon_min lon_max,
        g ∈ gdf ∧ intersects g ⟨lon_min, lat_min, lon_max, lat_max⟩ = true) := by
  constructor
  · intro G within ts ta gdf lat_min lat_max lon_min lon_max _ _ f hf
    have hsub : f ∈ gdf.filter
        (fun f => within f.geometry ⟨lon_min, lat_min, lon_max, lat_max⟩) := by
      unfold cargar_ciudades at hf
      dsimp only at hf
      split at hf
      · split at hf
        · exact hf
        · exact (List.mem_filter.mp hf).1
      · split at hf
        · split at hf
          · exact hf
          · exact (List.mem_filter.mp hf).1
        · exact hf
    exact ⟨hsub, (List.mem_filter.mp hsub).2⟩
  · intro G intersects gdf lat_min lat_max lon_min lon_max _ _ g hg
    unfold cargar_carreteras at hg
    exact ⟨(List.mem_filter.mp hg).1, (List.mem_filter.mp hg).2⟩

/-- C9 witness: a concrete point row strictly inside the example box is
returned by both loaders (instantiated with the point-in-box predicate), and
the theorem yields that its geometry passes the box test. -/
theorem C9_witness :
    punto_within ((-113 : ℚ), (25 : ℚ)) ⟨-120, 22, -108, 33⟩ = true ∧
    punto_within fila_ciudad_ejemplo.geometry ⟨-120, 22, -108, 33⟩ = true := by
  constructor
  · exact (C9_filtros_de_region.2 (ℚ × ℚ) punto_within [((-113 : ℚ), (25 : ℚ))]
      22 33 (-120) (-108) (by norm_num) (by norm_num) ((-113 : ℚ), (25 : ℚ))
      (by decide)).2
  · exact (C9_filtros_de_region.1 (ℚ × ℚ) punto_within true false [fila_ciudad_ejemplo]
      22 33 (-120) (-108) (by norm_num) (by norm_num) fila_ciudad_ejemplo
      (by decide)).2

/-! ## Claim C10 — zones with a missing coordinate default to 0 -/

/-- C10: a zone lacking "latitud" (resp. "longitud") is not rejected: both
the visibility filter and the drawing loop substitute 0 for the missing
coordinate, so the zone is visible exactly when the bounds contain 0 on that
axis (and the bounds contain the other coordinate), and its marker is drawn
at coordinate 0 on that axis. -/
theorem C10_coordenada_faltante :
    ∀ (lat_min lat_max lon_min lon_max : ℚ) (zonas : List Zona) (z : Zona),
      (z.raw.latitud = none →
        ((z ∈ zonas_visibles lat_min lat_max lon_min lon_max zonas ↔
          z ∈ zonas ∧ ((lat_min ≤ 0 ∧ 0 ≤ lat_max) ∧
            (lon_min ≤ z.raw.longitud.getD 0 ∧ z.raw.longitud.getD 0 ≤ lon_max))) ∧
         (∀ (radio_visual : ℚ) (m : Marcador),
            marcador_zona lat_min lat_max lon_min lon_max radio_visual z = some m →
            m.lat = 0))) ∧
      (z.raw.longitud = none →
        ((z ∈ zonas_visibles lat_min lat_max lon_min lon_max zonas ↔
          z ∈ zonas ∧ ((lat_min ≤ z.raw.latitud.getD 0 ∧ z.raw.latitud.getD 0 ≤ lat_max) ∧
            (lon_min ≤ 0 ∧ 0 ≤ lon_max))) ∧
         (∀ (radio_visual : ℚ) (m : Marcador),
            marcador_zona lat_min lat_max lon_min lon_max radio_visual z = some m →
            m.lon = 0))) := by
  intro lat_min lat_max lon_min lon_max zonas z
  constructor
  · intro hlat
    constructor
    · rw [zonas_visibles, List.mem_filter, zona_visible, hlat]
      simp
    · intro radio_visual m hm
      have h := (marcador_zona_eq_some hm).1
      rw [hlat] at h
      exact h
  · intro hlon
    constructor
    · rw [zonas_visibles, List.mem_filter, zona_visible, hlon]
      simp
    · intro radio_visual m hm
      have h := (marcador_zona_eq_some hm).2.1
      rw [hlon] at h
      exact h

/-- C10 witness: the concrete zone with no "latitud" key, inside bounds whose
latitude interval contains 0, is in the visible set. -/
theorem C10_witness :
    zona_sin_latitud ∈ zonas_visibles (-1) 33 (-120) (-108) [zona_sin_latitud] := by
  have h := ((C10_coordenada_faltante (-1) 33 (-120) (-108) [zona_sin_latitud]
    zona_sin_latitud).1 rfl).1
  exact h.mpr ⟨List.mem_singleton_self _, by norm_num, by norm_num [zona_sin_latitud]⟩

/-! ## Claim C3 — one shared visual radius, per-zone longitude correction -/

/-- C3: every marker of one `dibujar_zonas` call has the same latitudinal
height, `2 · (lat span · 0.008)` — derived once from the map's latitude
span, not from the 100-meter constant — while its longitudinal width is the
shared radius corrected for that zone's own latitude (divided by
`cos(latitude)` whenever that cosine is positive). -/
theorem C3_radio_visual_compartido :
    ∀ (lat_min lat_max lon_min lon_max : ℚ) (zonas : List Zona),
      ∀ m ∈ dibujar_zonas lat_min lat_max lon_min lon_max zonas,
        m.height = (lat_max - lat_min) * (0.008 : ℚ) * 2 ∧
        (∀ m' ∈ dibujar_zonas lat_min lat_max lon_min lon_max zonas, m'.height = m.height) ∧
        (∃ z ∈ zonas, m.lat = z.raw.latitud.getD 0) ∧
        m.width = radio_lon ((lat_max - lat_min) * (0.008 : ℚ)) m.lat * 2 ∧
        (0 < Real.cos (radianes (m.lat : ℝ)) →
          m.width = ((((lat_max - lat_min) * (0.008 : ℚ) : ℚ) : ℝ) /
            Real.cos (radianes (m.lat : ℝ))) * 2) := by
  intro lat_min lat_max lon_min lon_max zonas m hm
  obtain ⟨z, hz, hmz⟩ := mem_dibujar_zonas hm
  obtain ⟨hlat, _, hheight, hwidth⟩ := marcador_zona_eq_some hmz
  refine ⟨hheight, ?_, ⟨z, hz, hlat⟩, hwidth, ?_⟩
  · intro m' hm'
    obtain ⟨z', hz', hmz'⟩ := mem_dibujar_zonas hm'
    rw [(marcador_zona_eq_some hmz').2.2.1, hheight]
  · intro hcos
    rw [hwidth]
    unfold radio_lon
    rw [if_pos hcos]

/-- C3 witness: on the example map the zone's marker is in the drawn set and
its height is the shared value `(33 - 22) · 0.008 · 2`. -/
theorem C3_witness :
    ∃ m ∈ dibujar_zonas 22 33 (-120) (-108) [zona_ejemplo],
      m.height = (33 - 22) * (0.008 : ℚ) * 2 := by
  have hz : zona_visible 22 33 (-120) (-108) zona_ejemplo = true := by decide
  have hmem : ({ lon := zona_ejemplo.raw.longitud.getD 0,
                 lat := zona_ejemplo.raw.latitud.getD 0,
                 width := radio_lon ((33 - 22) * (0.008 : ℚ))
                   (zona_ejemplo.raw.latitud.getD 0) * 2,
                 height := (33 - 22) * (0.008 : ℚ) * 2,
                 facecolor := resolver_color (zona_ejemplo.raw.color.getD "rojo"),
                 texto := texto_id zona_ejemplo.raw.id,
                 texto_color :=
                   color_texto_contraste (resolver_color (zona_ejemplo.raw.color.getD "rojo")) }
        : Marcador) ∈ dibujar_zonas 22 33 (-120) (-108) [zona_ejemplo] := by
    unfold dibujar_zonas
    refine List.mem_filterMap.mpr ⟨zona_ejemplo, List.mem_singleton_self _, ?_⟩
    unfold marcador_zona
    rw [if_pos hz]
  exact ⟨_, hmem,
    (C3_radio_visual_compartido 22 33 (-120) (-108) [zona_ejemplo] _ hmem).1⟩

/-! ## Claim C1 — the division-by-zero guard at the poles -/

/-- C1 counterexample: `metros_a_grados` itself has no guard — at
latitud = 90° the longitude denominator `111320 · cos(π/2)` is exactly zero
in real arithmetic, so the conversion divides by zero (raises) instead of
returning. -/
theorem C1_counterexample : metros_a_grados 100 90 = none := by
  have hc : Real.cos (radianes (90 : ℝ)) = 0 := by
    have h90 : radianes (90 : ℝ) = Real.pi / 2 := by
      unfold radianes; ring
    rw [h90, Real.cos_pi_div_two]
  unfold metros_a_grados
  rw [hc, mul_zero, if_pos rfl]

/-- C1 amended: the "no correction" guard lives in `dibujar_zonas` only —
its longitudinal radius falls back to the uncorrected visual radius whenever
`cos(latitude)` is not strictly positive, and divides by the cosine when it
is; `metros_a_grados` returns (the unguarded pair of conversions) exactly
when `cos(radians(latitud))` is nonzero, and divides by zero at the
singularity itself (±90°, where the cosine vanishes). -/
theorem C1_guardia_singularidad :
    (∀ metros latitud : ℝ, Real.cos (radianes latitud) ≠ 0 →
      metros_a_grados metros latitud =
        some (metros / 111320, metros / (111320 * Real.cos (radianes latitud)))) ∧
    (∀ radio_visual lat : ℚ, ¬ 0 < Real.cos (radianes (lat : ℝ)) →
      radio_lon radio_visual lat = (radio_visual : ℝ)) ∧
    (∀ radio_visual lat : ℚ, 0 < Real.cos (radianes (lat : ℝ)) →
      radio_lon radio_visual lat =
        (radio_visual : ℝ) / Real.cos (radianes (lat : ℝ))) := by
  refine ⟨?_, ?_, ?_⟩
  · intro metros latitud h
    unfold metros_a_grados
    rw [if_neg (mul_ne_zero (by norm_num) h)]
  · intro radio_visual lat h
    unfold radio_lon
    rw [if_neg h]
  · intro radio_visual lat h
    unfold radio_lon
    rw [if_pos h]

/-- C1 witness: at the equator the conversion returns, and at latitud = 90°
(cosine zero, hence not positive) the drawn radius is the uncorrected one. -/
theorem C1_witness :
    metros_a_grados 100 0 =
      some (100 / 111320, 100 / (111320 * Real.cos (radianes 0))) ∧
    radio_lon 1 90 = ((1 : ℚ) : ℝ) := by
  have hc0 : Real.cos (radianes (0 : ℝ)) = 1 := by
    have h0 : radianes (0 : ℝ) = 0 := by unfold radianes; ring
    rw [h0, Real.cos_zero]
  have hc90 : Real.cos (radianes ((90 : ℚ) : ℝ)) = 0 := by
    have h90 : radianes ((90 : ℚ) : ℝ) = Real.pi / 2 := by
      unfold radianes
      push_cast
      ring
    rw [h90, Real.cos_pi_div_two]
  constructor
  · exact C1_guardia_singularidad.1 100 0 (by rw [hc0]; norm_num)
  · exact C1_guardia_singularidad.2.1 1 90 (by rw [hc90]; norm_num)

end Dibujapy
